import Mathlib

/-!
Shallow embedding of the airdb-airBox core (station resolver, paginated
fetchers, supplementary-data cache) from `src/app/airBox.py` and
`src/app/additional.py`, with theorems checking the specification's claims.

Geographic coordinates and distances are modelled over `ℝ` (the Python code
computes with IEEE floats; the real numbers are the idealised model).
All discrete data (ids, counters, offsets, timestamps in minutes) is
modelled with `Nat`/`Int`/`String`, keeping those parts executable.
-/

namespace AirBox

/-! ### Distance calculator (`airBox.py`, `haversine_distance`) -/

/-- `math.radians`: degrees to radians. -/
noncomputable def radians (d : ℝ) : ℝ := d * Real.pi / 180

/-- The standard two-argument arctangent, modelling Python's `math.atan2`
(an external library function): the angle of the point `(x, y)` in `(-π, π]`,
computed piecewise from `Real.arctan`. -/
noncomputable def atan2 (y x : ℝ) : ℝ :=
  if 0 < x then Real.arctan (y / x)
  else if x < 0 then
    (if 0 ≤ y then Real.arctan (y / x) + Real.pi else Real.arctan (y / x) - Real.pi)
  else
    (if 0 < y then Real.pi / 2 else if y < 0 then -(Real.pi / 2) else 0)

/-- `haversine_distance(lat1, lon1, lat2, lon2)` from `airBox.py`:
great-circle distance on a sphere of radius 6371 km. -/
noncomputable def haversine_distance (lat1 lon1 lat2 lon2 : ℝ) : ℝ :=
  let R : ℝ := 6371
  let lat1r := radians lat1
  let lon1r := radians lon1
  let lat2r := radians lat2
  let lon2r := radians lon2
  let dlat := lat2r - lat1r
  let dlon := lon2r - lon1r
  let a := Real.sin (dlat / 2) ^ 2 + Real.cos lat1r * Real.cos lat2r * Real.sin (dlon / 2) ^ 2
  let c := 2 * atan2 (Real.sqrt a) (Real.sqrt (1 - a))
  R * c

/-! ### Stations and the station resolver (`airBox.py`) -/

/-- A station record as consumed by the resolver: upstream station metadata.
The Python code reads `twd97lat`/`twd97lon` as strings and converts with
`float`; here the coordinate fields are already the parsed numbers. -/
structure Station where
  siteid : Nat
  twd97lat : ℝ
  twd97lon : ℝ

/-- The comparison `distance_to_station < min_distance` where `min_distance`
starts at `float('inf')`: `none` models the infinite sentinel, so the first
comparison always succeeds. -/
def ltInf (d : ℝ) : Option ℝ → Prop
  | none => True
  | some m => d < m

noncomputable instance ltInf.decidable (d : ℝ) : (m : Option ℝ) → Decidable (ltInf d m)
  | none => isTrue trivial
  | some m => inferInstanceAs (Decidable (d < m))

/-- The scan loop of `get_nearest_station_from_latlon`, with the running
minimum distance (`none` = `float('inf')`) and running closest station
(`none` = Python `None`) made explicit, parameterised by the distance
function applied to each station. -/
noncomputable def nearestLoop (dist : Station → ℝ) :
    List Station → Option ℝ → Option Station → Option Station
  | [], _, closest => closest
  | s :: rest, minD, closest =>
    if ltInf (dist s) minD then nearestLoop dist rest (some (dist s)) (some s)
    else nearestLoop dist rest minD closest

/-- The distance computed for one candidate inside the loop:
`haversine_distance(latlon[0], latlon[1], station_lat, station_lon)`. -/
noncomputable def stationDistance (latlon : ℝ × ℝ) (s : Station) : ℝ :=
  haversine_distance latlon.1 latlon.2 s.twd97lat s.twd97lon

/-- `get_nearest_station_from_latlon(latlon, air_quality_stations)` from
`airBox.py`: linear scan keeping the strictly closer station; returns
Python `None` (here `none`) when the list is empty. -/
noncomputable def get_nearest_station_from_latlon
    (latlon : ℝ × ℝ) (air_quality_stations : List Station) : Option Station :=
  nearestLoop (stationDistance latlon) air_quality_stations none none

/-- Specification-side definition (from the spec's words, for the refinement
claim): the first element of the list attaining the minimal distance.
`firstMinSpec d (s :: rest)` is `s` exactly when `d s` is less than or equal
to the best of `rest`, so earlier elements win ties. -/
noncomputable def firstMinSpec (d : Station → ℝ) : List Station → Option Station
  | [] => none
  | s :: rest =>
    match firstMinSpec d rest with
    | none => some s
    | some t => if d s ≤ d t then some s else some t

/-- `get_air_quality_stations` from `airBox.py`, after the upstream HTTP
fetch: drops every station whose `siteid` is in the configured deny-list
`missing_endpoint_site_ids` (kept as the parameter `missing_endpoint_site_ids`,
since `constants.py` is not part of the given sources). -/
def get_air_quality_stations
    (missing_endpoint_site_ids : List Nat) (air_quality_stations : List Station) :
    List Station :=
  air_quality_stations.filter (fun station => !(missing_endpoint_site_ids.contains station.siteid))

/-! ### Upstream records and the pollution fetcher (`airBox.py`) -/

/-- One record of an upstream API page, with the fields the code reads.
`monitordate` is the timestamp, modelled as minutes on a linear clock in the
fixed regional timezone (the Python code parses the `"YYYY-MM-DD HH:MM"`
string with `strptime` and tags it with the `Asia/Taipei` zone). -/
structure UpRec where
  itemengname : String
  county : String
  sitename : String
  siteid : Nat
  concentration : String
  monitordate : Int
deriving DecidableEq

/-- A filtered PM2.5 record as built in `get_pollution_from_station`
(`pm25` stands for the `pm25_value_key` field, `time` for `record_time_key`). -/
structure PRec where
  county : String
  sitename : String
  siteid : Nat
  pm25 : String
  time : Int
deriving DecidableEq

/-- The `filtered_record` dictionary built from an upstream record. -/
def toPRec (r : UpRec) : PRec :=
  ⟨r.county, r.sitename, r.siteid, r.concentration, r.monitordate⟩

/-- The inner `for record in records` loop of `get_pollution_from_station`:
append each PM2.5 record, and `break` as soon as the accumulated count
reaches `target_amount`. -/
def processPollutionPage (target_amount : Nat) (station_records : List PRec) :
    List UpRec → List PRec
  | [] => station_records
  | r :: rs =>
    if r.itemengname = "PM2.5" then
      let station_records' := station_records ++ [toPRec r]
      if station_records'.length = target_amount then station_records'
      else processPollutionPage target_amount station_records' rs
    else processPollutionPage target_amount station_records rs

/-- The `while len(station_records) < target_amount` loop of
`get_pollution_from_station`. The upstream API is modelled as `pages`,
mapping a requested offset to the returned page. The loop has no other
stopping condition, so it is run on `fuel`: the first component is `none`
when the loop is still running after `fuel` iterations, `some` with the
accumulated records when the `while` condition became false. The second
component records the offsets at which page requests were issued. -/
def pollutionLoop (pages : Nat → List UpRec) (target_amount : Nat) :
    Nat → Nat → List PRec → Option (List PRec) × List Nat
  | 0, _, station_records =>
    if station_records.length < target_amount then (none, [])
    else (some station_records, [])
  | fuel + 1, offset, station_records =>
    if station_records.length < target_amount then
      let station_records' := processPollutionPage target_amount station_records (pages offset)
      let rest := pollutionLoop pages target_amount fuel (offset + 1000) station_records'
      (rest.1, offset :: rest.2)
    else (some station_records, [])

/-- `get_pollution_from_station(days, station)` from `airBox.py`, for the
station's endpoint modelled by `pages`; `records_per_day` comes from
`constants.py` (not under `src/`) and is kept as a parameter. -/
def get_pollution_from_station (pages : Nat → List UpRec) (records_per_day days fuel : Nat) :
    Option (List PRec) × List Nat :=
  pollutionLoop pages (records_per_day * days) fuel 0 []

/-! ### Supplementary fetch (`additional.py`, `fetch_and_save_additional_data`) -/

/-- Modelled from the spec: the upstream category label for temperature
records (`AdditionalData.temperature.MOE_API_value_key` in `constants.py`,
which is not under `src/`); the spec's external-interface section names the
label `"AMB_TEMP"`. -/
def temperature_MOE_API_value_key : String := "AMB_TEMP"

/-- Modelled from the spec: the upstream category label for humidity
records (`AdditionalData.humidity.MOE_API_value_key` in `constants.py`,
which is not under `src/`); the spec names the label `"RH"`. -/
def humidity_MOE_API_value_key : String := "RH"

/-- A cached supplementary record `{siteid, <value_field>, <timestamp_field>}`
(the `new_record` dictionaries of `fetch_and_save_additional_data`):
`value` holds the `concentration` string, `time` the timestamp in minutes. -/
structure ARec where
  siteid : Nat
  value : String
  time : Int
deriving DecidableEq

/-- A Python `defaultdict(list)` keyed by station id: `keys` lists the keys
in insertion order (so `len(...)` of the dict is `keys.length`), `data` maps
every id to its list (`[]` for absent keys, as `defaultdict` supplies). -/
structure Buckets where
  keys : List Nat
  data : Nat → List ARec

def emptyBuckets : Buckets := ⟨[], fun _ => []⟩

/-- `bucket[sid].append(r)`: adds the key on first access and appends. -/
def Buckets.push (b : Buckets) (sid : Nat) (r : ARec) : Buckets :=
  { keys := if sid ∈ b.keys then b.keys else b.keys ++ [sid]
    data := fun k => if k = sid then b.data sid ++ [r] else b.data k }

/-- The mutable state of the `fetch_and_save_additional_data` loop. -/
structure AddState where
  temperature_data : Buckets
  temperature_data_amount : Nat
  humidity_data : Buckets
  humidity_data_amount : Nat
  offset : Nat
  consecutive_empty_fetch : Nat

def initAddState : AddState := ⟨emptyBuckets, 0, emptyBuckets, 0, 0, 0⟩

/-- The body of `for record in records` in `fetch_and_save_additional_data`:
skip the record when `current_datetime - record_datetime >
timedelta(hours=target_amount_per_station)` (here `window_hours`, with times
in minutes), otherwise classify by the category label and append to the
matching bucket, bumping that bucket's record counter. -/
def processRecord (current_datetime : Int) (window_hours : Nat) (st : AddState) (r : UpRec) :
    AddState :=
  if current_datetime - r.monitordate > 60 * (window_hours : Int) then st
  else if r.itemengname = temperature_MOE_API_value_key then
    { st with
      temperature_data := st.temperature_data.push r.siteid ⟨r.siteid, r.concentration, r.monitordate⟩
      temperature_data_amount := st.temperature_data_amount + 1 }
  else if r.itemengname = humidity_MOE_API_value_key then
    { st with
      humidity_data := st.humidity_data.push r.siteid ⟨r.siteid, r.concentration, r.monitordate⟩
      humidity_data_amount := st.humidity_data_amount + 1 }
  else st

def processAddPage (current_datetime : Int) (window_hours : Nat) (st : AddState)
    (records : List UpRec) : AddState :=
  records.foldl (processRecord current_datetime window_hours) st

/-- One iteration body of the `while` loop of
`fetch_and_save_additional_data`, faithful to the source order: request the
page at the current offset, process its records, add 1000 to the offset,
then run the consecutive-empty-fetch guard exactly as written
(`len(temperature_data) == initial_temperature_amount or
len(humidity_data) == initial_humidity_amount`, comparing the number of
dict keys with the record count saved at iteration start, and never
resetting the counter), and the `offset >= 30000` safety stop. Returns the
updated state and whether one of the two `break`s fired. -/
def addIter (pages : Nat → List UpRec) (current_datetime : Int) (window_hours : Nat)
    (st : AddState) : AddState × Bool :=
  let st1 := processAddPage current_datetime window_hours st (pages st.offset)
  let emptyFetch : Bool :=
    st1.temperature_data.keys.length = st.temperature_data_amount ∨
    st1.humidity_data.keys.length = st.humidity_data_amount
  let st3 : AddState :=
    { st1 with
      offset := st.offset + 1000
      consecutive_empty_fetch :=
        if emptyFetch then st1.consecutive_empty_fetch + 1
        else st1.consecutive_empty_fetch }
  (st3, (emptyFetch && st1.consecutive_empty_fetch + 1 == 3) || 30000 ≤ st.offset + 1000)

/-- The `while` loop of `fetch_and_save_additional_data`: iterate `addIter`
while either record count is below `target_amount`, stopping when an
iteration's `break` fires. `current_datetime` is fixed outside the loop,
mirroring the code computing `datetime.now` once per run. Run on `fuel`
(first component `none` if the loop is still running after `fuel`
iterations); the second component records the offsets at which page
requests were issued. -/
def addLoop (pages : Nat → List UpRec) (current_datetime : Int) (window_hours : Nat)
    (target_amount : Nat) : Nat → AddState → Option AddState × List Nat
  | 0, st =>
    if st.temperature_data_amount < target_amount ∨ st.humidity_data_amount < target_amount
    then (none, []) else (some st, [])
  | fuel + 1, st =>
    if st.temperature_data_amount < target_amount ∨ st.humidity_data_amount < target_amount then
      if (addIter pages current_datetime window_hours st).2 then
        (some (addIter pages current_datetime window_hours st).1, [st.offset])
      else
        ((addLoop pages current_datetime window_hours target_amount fuel
            (addIter pages current_datetime window_hours st).1).1,
          st.offset ::
            (addLoop pages current_datetime window_hours target_amount fuel
              (addIter pages current_datetime window_hours st).1).2)
    else (some st, [])

/-- The state in which the supplementary fetch loop finishes. Fuel 30
always suffices, because the offset grows by 1000 per iteration and the
loop hard-stops at 30000 (`addLoop_complete` below). -/
def fetchFinalState (pages : Nat → List UpRec) (current_datetime : Int) (window_hours : Nat)
    (target_amount : Nat) : AddState :=
  ((addLoop pages current_datetime window_hours target_amount 30 initAddState).1).getD initAddState

/-! ### The file cache (`additional.py`) -/

/-- JSON values, for the serialized cache files. -/
inductive Json where
  | num (n : Int)
  | str (s : String)
  | arr (elems : List Json)
  | obj (fields : List (String × Json))

/-- Content of a cache file: either text that is not valid JSON, or a
parsed JSON value (modelling the text layer handled by Python's `json`
module, which is external to the sources). -/
inductive FileData where
  | invalid
  | valid (j : Json)

/-- The cache directories: one file per station id in the temperature
folder and one in the humidity folder; `none` means the file is absent. -/
structure FS where
  temperature : Nat → Option FileData
  humidity : Nat → Option FileData

/-- Modelled from the spec: the cache-record value field for temperature
(`AdditionalData.temperature.data_value_key` in `constants.py`, not under
`src/`; the spec only fixes that it is some field name `<value_field>`). -/
def temperature_data_value_key : String := "temperature"

/-- Modelled from the spec: the cache-record value field for humidity
(`AdditionalData.humidity.data_value_key` in `constants.py`, not under
`src/`). -/
def humidity_data_value_key : String := "humidity"

/-- Modelled from the spec: the cache-record timestamp field
(`record_time_key` in `constants.py`, not under `src/`). -/
def record_time_key : String := "time"

/-- JSON serialization of one cached record, as `json.dump` writes it. -/
def encodeARec (value_key : String) (r : ARec) : Json :=
  .obj [("siteid", .num r.siteid), (value_key, .str r.value), (record_time_key, .num r.time)]

/-- JSON serialization of one station's record list. -/
def encodeARecList (value_key : String) (l : List ARec) : Json :=
  .arr (l.map (encodeARec value_key))

/-- Inverse of `encodeARec`: recovers the record from its JSON object. -/
def decodeARec (value_key : String) : Json → Option ARec
  | .obj [("siteid", .num n), (vk, .str v), (tk, .num t)] =>
    if vk = value_key ∧ tk = record_time_key ∧ 0 ≤ n then some ⟨n.toNat, v, t⟩ else none
  | _ => none

/-- Decodes every element of a JSON array, failing if any element fails. -/
def decodeRecs (value_key : String) : List Json → Option (List ARec)
  | [] => some []
  | j :: js =>
    match decodeARec value_key j, decodeRecs value_key js with
    | some r, some rs => some (r :: rs)
    | _, _ => none

/-- Inverse of `encodeARecList`. -/
def decodeARecList (value_key : String) : Json → Option (List ARec)
  | .arr elems => decodeRecs value_key elems
  | _ => none

/-- The save phase of `fetch_and_save_additional_data`: for every station id
in the bucket dict, overwrite that station's file with the serialized list;
files of stations not in the dict are left as they were. -/
def saveBuckets (value_key : String) (b : Buckets) (folder : Nat → Option FileData) :
    Nat → Option FileData :=
  fun sid =>
    if sid ∈ b.keys then some (.valid (encodeARecList value_key (b.data sid))) else folder sid

/-- `fetch_and_save_additional_data` from `additional.py`: run the paginated
fetch loop, then write each station's temperature and humidity lists to its
cache files. -/
def fetch_and_save_additional_data (pages : Nat → List UpRec) (current_datetime : Int)
    (window_hours : Nat) (target_amount : Nat) (fs : FS) : FS :=
  let st := fetchFinalState pages current_datetime window_hours target_amount
  { temperature := saveBuckets temperature_data_value_key st.temperature_data fs.temperature
    humidity := saveBuckets humidity_data_value_key st.humidity_data fs.humidity }

/-- How reading a cache file can fail: `open` on a missing file raises
`FileNotFoundError`; `json.load` on invalid JSON raises a parse error. -/
inductive LoadErr where
  | fileNotFound
  | parseError
deriving DecidableEq

/-- `open` followed by `json.load` on one cache file. -/
def readJson : Option FileData → Except LoadErr Json
  | none => .error .fileNotFound
  | some .invalid => .error .parseError
  | some (.valid j) => .ok j

/-- The observable outcome of `load_additional_data`: the returned pair of
parsed JSON values (or the raised error), plus whether the call triggered
`fetch_and_save_additional_data`. -/
structure LoadOutcome where
  result : Except LoadErr (Json × Json)
  didRefresh : Bool

/-- `load_additional_data(stationId)` from `additional.py`: if either of the
station's two cache files is missing, first run
`fetch_and_save_additional_data` (for all stations); then read and parse the
temperature file and the humidity file, in that order. -/
def load_additional_data (pages : Nat → List UpRec) (current_datetime : Int)
    (window_hours : Nat) (target_amount : Nat) (fs : FS) (stationId : Nat) : LoadOutcome :=
  let missing := (fs.temperature stationId).isNone || (fs.humidity stationId).isNone
  let fs1 :=
    if missing then
      fetch_and_save_additional_data pages current_datetime window_hours target_amount fs
    else fs
  match readJson (fs1.temperature stationId) with
  | .error e => ⟨.error e, missing⟩
  | .ok tj =>
    match readJson (fs1.humidity stationId) with
    | .error e => ⟨.error e, missing⟩
    | .ok hj => ⟨.ok (tj, hj), missing⟩

/-- The key list of a bucket dict holds exactly the station ids with a
non-empty record list. -/
def BucketsKeysWF (b : Buckets) : Prop := ∀ sid, sid ∈ b.keys ↔ b.data sid ≠ []

/-- Every record in a bucket carries the bucket's own station id. -/
def BucketsSiteInv (b : Buckets) : Prop := ∀ sid r, r ∈ b.data sid → r.siteid = sid

/-- Both invariants, on both bucket dicts of the fetch-loop state. -/
def AddInv (st : AddState) : Prop :=
  BucketsKeysWF st.temperature_data ∧ BucketsKeysWF st.humidity_data ∧
    BucketsSiteInv st.temperature_data ∧ BucketsSiteInv st.humidity_data

/-! ### Concrete feeds used in witnesses and counterexamples -/

/-- A feed whose first page holds one in-window temperature record and one
in-window humidity record for station 1, all later pages empty. -/
def examplePages : Nat → List UpRec :=
  fun o =>
    if o = 0 then
      [⟨"AMB_TEMP", "county", "site", 1, "25", 0⟩, ⟨"RH", "county", "site", 1, "60", 0⟩]
    else []

/-- A feed whose first page holds two temperature records (station 1) and
two humidity records (station 2), all later pages empty — so every page
after the first produces zero growth in both record counts, while the
number of bucket keys (1) never equals the record count at iteration
start (2). -/
def miscountPages : Nat → List UpRec :=
  fun o =>
    if o = 0 then
      [⟨"AMB_TEMP", "county", "site", 1, "20", 0⟩, ⟨"AMB_TEMP", "county", "site", 1, "21", 0⟩,
       ⟨"RH", "county", "site", 2, "55", 0⟩, ⟨"RH", "county", "site", 2, "56", 0⟩]
    else []

/-! ### Lemmas about the resolver loop -/

theorem nearestLoop_some (dist : Station → ℝ) (l : List Station) (m : ℝ) (c : Station) :
    nearestLoop dist l (some m) (some c) =
      match firstMinSpec dist l with
      | none => some c
      | some t => if dist t < m then some t else some c := by
  induction l generalizing m c with
  | nil => simp [nearestLoop, firstMinSpec]
  | cons s rest ih =>
    by_cases hs : dist s < m
    · rw [nearestLoop, if_pos (show ltInf (dist s) (some m) from hs), ih]
      cases hrest : firstMinSpec dist rest with
      | none => simp [firstMinSpec, hrest, hs]
      | some t =>
        by_cases hts : dist s ≤ dist t
        · have h1 : ¬ dist t < dist s := not_lt.mpr hts
          simp [firstMinSpec, hrest, h1, hts, hs]
        · have hlt : dist t < dist s := lt_of_not_le hts
          have htm : dist t < m := lt_trans hlt hs
          simp [firstMinSpec, hrest, hlt, hts, htm]
    · rw [nearestLoop, if_neg (show ¬ ltInf (dist s) (some m) from hs)]
      rw [ih]
      cases hrest : firstMinSpec dist rest with
      | none => simp [firstMinSpec, hrest, hs]
      | some t =>
        by_cases hts : dist s ≤ dist t
        · have : ¬ dist s < m := hs
          have h1 : dist t < m → False := fun h => this (lt_of_le_of_lt hts h)
          simp only [firstMinSpec, hrest, if_pos hts]
          by_cases htm : dist t < m
          · exact absurd htm h1
          · simp [htm, hs]
        · simp [firstMinSpec, hrest, if_neg hts]

theorem nearestLoop_eq_firstMinSpec (dist : Station → ℝ) (l : List Station) :
    nearestLoop dist l none none = firstMinSpec dist l := by
  cases l with
  | nil => rfl
  | cons s rest =>
    rw [nearestLoop, if_pos (by trivial : ltInf (dist s) none), nearestLoop_some]
    cases hrest : firstMinSpec dist rest with
    | none => simp [firstMinSpec, hrest]
    | some t =>
      by_cases hts : dist s ≤ dist t
      · have h1 : ¬ dist t < dist s := not_lt.mpr hts
        simp [firstMinSpec, hrest, h1, hts]
      · have hlt : dist t < dist s := lt_of_not_le hts
        simp [firstMinSpec, hrest, hlt, hts]

theorem firstMinSpec_isSome (dist : Station → ℝ) (l : List Station) (h : l ≠ []) :
    ∃ t, firstMinSpec dist l = some t := by
  cases l with
  | nil => exact absurd rfl h
  | cons s rest =>
    cases hr : firstMinSpec dist rest with
    | none => exact ⟨s, by rw [firstMinSpec, hr]⟩
    | some t =>
      by_cases hts : dist s ≤ dist t
      · exact ⟨s, by rw [firstMinSpec, hr]; simp [hts]⟩
      · exact ⟨t, by rw [firstMinSpec, hr]; simp [hts]⟩

theorem firstMinSpec_mem_min (dist : Station → ℝ) (l : List Station) (t : Station)
    (h : firstMinSpec dist l = some t) : t ∈ l ∧ ∀ u ∈ l, dist t ≤ dist u := by
  induction l generalizing t with
  | nil => simp [firstMinSpec] at h
  | cons s rest ih =>
    cases hrest : firstMinSpec dist rest with
    | none =>
      simp only [firstMinSpec, hrest] at h
      injection h with h
      subst h
      have hnil : rest = [] := by
        cases rest with
        | nil => rfl
        | cons a b =>
          rcases firstMinSpec_isSome dist (a :: b) (by simp) with ⟨t', ht'⟩
          rw [ht'] at hrest
          cases hrest
      subst hnil
      simp
    | some t' =>
      simp only [firstMinSpec, hrest] at h
      obtain ⟨hmem, hmin⟩ := ih t' hrest
      by_cases hts : dist s ≤ dist t'
      · rw [if_pos hts] at h
        injection h with h
        subst h
        refine ⟨List.mem_cons_self _ _, ?_⟩
        intro u hu
        rcases List.mem_cons.mp hu with h | h
        · subst h; exact le_refl _
        · exact le_trans hts (hmin u h)
      · rw [if_neg hts] at h
        injection h with h
        subst h
        refine ⟨List.mem_cons_of_mem _ hmem, ?_⟩
        intro u hu
        rcases List.mem_cons.mp hu with h | h
        · subst h; exact le_of_lt (lt_of_not_le hts)
        · exact hmin u h

theorem get_nearest_eq_firstMinSpec (latlon : ℝ × ℝ) (stations : List Station) :
    get_nearest_station_from_latlon latlon stations =
      firstMinSpec (stationDistance latlon) stations :=
  nearestLoop_eq_firstMinSpec (stationDistance latlon) stations

/-- C1: for every non-empty station list and target coordinates,
`get_nearest_station_from_latlon` returns a station of the list whose
haversine distance to the target is less than or equal to every other
station's, and the result is exactly the first-encountered station
attaining the minimum (`firstMinSpec`), so ties go to the earlier station. -/
theorem nearest_station_min_and_first_tie (latlon : ℝ × ℝ) (stations : List Station)
    (h : stations ≠ []) :
    ∃ s, get_nearest_station_from_latlon latlon stations = some s ∧ s ∈ stations ∧
      (∀ t ∈ stations, stationDistance latlon s ≤ stationDistance latlon t) ∧
      get_nearest_station_from_latlon latlon stations =
        firstMinSpec (stationDistance latlon) stations := by
  rcases firstMinSpec_isSome (stationDistance latlon) stations h with ⟨t, ht⟩
  obtain ⟨hmem, hmin⟩ := firstMinSpec_mem_min _ _ _ ht
  refine ⟨t, ?_, hmem, hmin, get_nearest_eq_firstMinSpec latlon stations⟩
  rw [get_nearest_eq_firstMinSpec, ht]

/-- Witness for C1: the resolver hypothesis is satisfiable, applied to a
singleton station list. -/
theorem nearest_station_min_and_first_tie_witness :
    ([(⟨1, 25, 121⟩ : Station)] ≠ []) ∧
      (∃ s, get_nearest_station_from_latlon ((24 : ℝ), (120 : ℝ)) [⟨1, 25, 121⟩] = some s ∧
        s ∈ [(⟨1, 25, 121⟩ : Station)] ∧
        (∀ t ∈ [(⟨1, 25, 121⟩ : Station)],
          stationDistance ((24 : ℝ), (120 : ℝ)) s ≤ stationDistance ((24 : ℝ), (120 : ℝ)) t) ∧
        get_nearest_station_from_latlon ((24 : ℝ), (120 : ℝ)) [⟨1, 25, 121⟩] =
          firstMinSpec (stationDistance ((24 : ℝ), (120 : ℝ))) [⟨1, 25, 121⟩]) :=
  ⟨by simp, nearest_station_min_and_first_tie ((24 : ℝ), (120 : ℝ)) [⟨1, 25, 121⟩] (by simp)⟩

/-- C7 counterexample: on the empty station list the resolver returns
Python `None` (modelled as `none`) — it returns a value and raises no
error; no exception path exists in `get_nearest_station_from_latlon`. -/
theorem nearest_station_empty_counterexample :
    get_nearest_station_from_latlon ((0 : ℝ), (0 : ℝ)) [] = none := rfl

/-- C7 amended: applied to an empty station list, the resolver returns
`None` (no station) rather than raising a no-stations error. -/
theorem nearest_station_empty_returns_none (latlon : ℝ × ℝ) :
    get_nearest_station_from_latlon latlon [] = none := rfl

/-- C8: a station whose `siteid` is in the deny-list
`missing_endpoint_site_ids` is never the resolver's output when the
candidate list has been produced by `get_air_quality_stations`, which
filters the deny-listed stations out before resolution. -/
theorem resolver_never_returns_denied (missing_endpoint_site_ids : List Nat)
    (raw : List Station) (latlon : ℝ × ℝ) (s : Station)
    (h : get_nearest_station_from_latlon latlon
        (get_air_quality_stations missing_endpoint_site_ids raw) = some s) :
    s.siteid ∉ missing_endpoint_site_ids := by
  rw [get_nearest_eq_firstMinSpec] at h
  obtain ⟨hmem, -⟩ := firstMinSpec_mem_min _ _ _ h
  rw [get_air_quality_stations, List.mem_filter] at hmem
  simpa using hmem.2

/-- Witness for C8: concrete deny-list `[5]` and a single allowed station;
the resolver returns that station, whose id is not deny-listed. -/
theorem resolver_never_returns_denied_witness :
    get_nearest_station_from_latlon ((0 : ℝ), (0 : ℝ))
        (get_air_quality_stations [5] [⟨1, 25, 121⟩]) = some ⟨1, 25, 121⟩ ∧
      (⟨1, 25, 121⟩ : Station).siteid ∉ [5] :=
  ⟨rfl, resolver_never_returns_denied [5] [⟨1, 25, 121⟩] ((0 : ℝ), (0 : ℝ)) ⟨1, 25, 121⟩ rfl⟩

/-! ### Lemmas about the pollution fetch loop -/

theorem processPollutionPage_mono (target : Nat) (rs : List UpRec) :
    ∀ acc : List PRec, acc.length ≤ (processPollutionPage target acc rs).length := by
  induction rs with
  | nil => intro acc; simp [processPollutionPage]
  | cons r rs ih =>
    intro acc
    rw [processPollutionPage]
    by_cases hm : r.itemengname = "PM2.5"
    · rw [if_pos hm]
      by_cases hfull : (acc ++ [toPRec r]).length = target
      · rw [if_pos hfull]
        have : (acc ++ [toPRec r]).length = acc.length + 1 := by simp
        omega
      · simp only [hfull, if_neg, ite_false]
        calc acc.length ≤ (acc ++ [toPRec r]).length := by simp
          _ ≤ _ := ih (acc ++ [toPRec r])
    · rw [if_neg hm]; exact ih acc

theorem processPollutionPage_le_target (target : Nat) (rs : List UpRec) :
    ∀ acc : List PRec, acc.length < target →
      (processPollutionPage target acc rs).length ≤ target := by
  induction rs with
  | nil => intro acc h; simpa [processPollutionPage] using le_of_lt h
  | cons r rs ih =>
    intro acc h
    rw [processPollutionPage]
    by_cases hm : r.itemengname = "PM2.5"
    · rw [if_pos hm]
      by_cases hfull : (acc ++ [toPRec r]).length = target
      · simp [hfull]
      · rw [if_neg hfull]
        have hlen : (acc ++ [toPRec r]).length = acc.length + 1 := by simp
        have : (acc ++ [toPRec r]).length < target := by
          rcases lt_or_eq_of_le (Nat.succ_le_of_lt h) with h' | h'
          · simpa [hlen] using h'
          · exact absurd (by simpa [hlen] using h') hfull
        exact ih _ this
    · rw [if_neg hm]; exact ih acc h

theorem processPollutionPage_grows (target : Nat) (rs : List UpRec) :
    ∀ acc : List PRec, acc.length < target →
      (∃ r ∈ rs, r.itemengname = "PM2.5") →
      acc.length < (processPollutionPage target acc rs).length := by
  induction rs with
  | nil => rintro acc - ⟨r, hr, -⟩; cases hr
  | cons r rs ih =>
    rintro acc h ⟨q, hq, hqm⟩
    rw [processPollutionPage]
    by_cases hm : r.itemengname = "PM2.5"
    · rw [if_pos hm]
      by_cases hfull : (acc ++ [toPRec r]).length = target
      · simp [hfull, h]
      · rw [if_neg hfull]
        calc acc.length < (acc ++ [toPRec r]).length := by simp
          _ ≤ _ := processPollutionPage_mono target rs _
    · rw [if_neg hm]
      rcases List.mem_cons.mp hq with hq' | hq'
      · exact absurd (hq' ▸ hqm) hm
      · exact ih acc h ⟨q, hq', hqm⟩

theorem pollutionLoop_reaches_target (pages : Nat → List UpRec) (target : Nat)
    (Hp : ∀ o, ∃ r ∈ pages o, r.itemengname = "PM2.5") :
    ∀ fuel offset (acc : List PRec), acc.length ≤ target → target ≤ acc.length + fuel →
      ∃ l, (pollutionLoop pages target fuel offset acc).1 = some l ∧ l.length = target := by
  intro fuel
  induction fuel with
  | zero =>
    intro offset acc hle hge
    have heq : acc.length = target := le_antisymm hle (by simpa using hge)
    refine ⟨acc, ?_, heq⟩
    rw [pollutionLoop, if_neg (by omega)]
  | succ fuel ih =>
    intro offset acc hle hge
    by_cases hlt : acc.length < target
    · have hgrow := processPollutionPage_grows target (pages offset) acc hlt (Hp offset)
      have hbound := processPollutionPage_le_target target (pages offset) acc hlt
      obtain ⟨l, hl, hlen⟩ :=
        ih (offset + 1000) (processPollutionPage target acc (pages offset)) hbound (by omega)
      refine ⟨l, ?_, hlen⟩
      rw [pollutionLoop, if_pos hlt]
      exact hl
    · have heq : acc.length = target := le_antisymm hle (not_lt.mp hlt)
      refine ⟨acc, ?_, heq⟩
      rw [pollutionLoop, if_neg hlt]

/-- C2: with a target of `records_per_day × days > 0` records and an
upstream feed in which every page contains a PM2.5 record, the pollution
fetch terminates (fuel equal to the target suffices) and accumulates
exactly the target number of records. -/
theorem pollution_fetch_exact_target (pages : Nat → List UpRec) (records_per_day days : Nat)
    (hN : 0 < records_per_day * days)
    (Hp : ∀ o, ∃ r ∈ pages o, r.itemengname = "PM2.5") :
    ∃ l, (get_pollution_from_station pages records_per_day days (records_per_day * days)).1
        = some l ∧ l.length = records_per_day * days := by
  have := pollutionLoop_reaches_target pages (records_per_day * days) Hp
    (records_per_day * days) 0 [] (by simp) (by simp)
  simpa [get_pollution_from_station] using this

/-- Witness for C2: one PM2.5 record on every page, `records_per_day = 1`,
`days = 2`: the fetch returns exactly two records. -/
theorem pollution_fetch_exact_target_witness :
    (0 < 1 * 2) ∧
      (∃ l, (get_pollution_from_station
          (fun _ => [⟨"PM2.5", "county", "site", 1, "10", 0⟩]) 1 2 (1 * 2)).1 = some l ∧
        l.length = 1 * 2) :=
  ⟨by decide,
    pollution_fetch_exact_target (fun _ => [⟨"PM2.5", "county", "site", 1, "10", 0⟩]) 1 2
      (by decide) (fun o => ⟨⟨"PM2.5", "county", "site", 1, "10", 0⟩, by simp, rfl⟩)⟩

/-- C4 counterexample: the pollution fetch loop has no offset ceiling. On a
feed that never yields a PM2.5 record (every page empty) with target 1, the
run issues a page request at offset 30000. -/
theorem pollution_fetch_requests_offset_30000 :
    30000 ∈ (get_pollution_from_station (fun _ => []) 1 1 31).2 := by decide

/-! ### Lemmas about the supplementary fetch loop -/

theorem addIter_offset (pages : Nat → List UpRec) (now : Int) (window : Nat) (st : AddState) :
    (addIter pages now window st).1.offset = st.offset + 1000 := by
  simp [addIter]

theorem addIter_not_stopped (pages : Nat → List UpRec) (now : Int) (window : Nat)
    (st : AddState) (h : (addIter pages now window st).2 = false) :
    st.offset + 1000 < 30000 := by
  simp only [addIter, Bool.or_eq_false_iff, decide_eq_false_iff_not, not_le] at h
  exact h.2

theorem addLoop_isSome (pages : Nat → List UpRec) (now : Int) (window target : Nat) :
    ∀ fuel st, 1 ≤ fuel → 30000 ≤ st.offset + 1000 * fuel →
      ((addLoop pages now window target fuel st).1).isSome := by
  intro fuel
  induction fuel with
  | zero => intro st h1 _; omega
  | succ fuel ih =>
    intro st h1 h2
    rw [addLoop]
    by_cases hw : st.temperature_data_amount < target ∨ st.humidity_data_amount < target
    · rw [if_pos hw]
      by_cases hb : (addIter pages now window st).2 = true
      · rw [if_pos hb]; simp
      · rw [if_neg hb]
        have hoff := addIter_not_stopped pages now window st (by simpa using hb)
        have hfuel : 1 ≤ fuel := by omega
        exact ih _ hfuel (by rw [addIter_offset]; omega)
    · rw [if_neg hw]; simp

theorem addLoop_run_complete (pages : Nat → List UpRec) (now : Int) (window target : Nat) :
    (addLoop pages now window target 30 initAddState).1 =
      some (fetchFinalState pages now window target) := by
  have h := addLoop_isSome pages now window target 30 initAddState (by omega)
    (by simp [initAddState])
  cases ho : (addLoop pages now window target 30 initAddState).1 with
  | none => rw [ho] at h; simp at h
  | some st => simp [fetchFinalState, ho]

theorem addLoop_offsets_lt (pages : Nat → List UpRec) (now : Int) (window target : Nat) :
    ∀ fuel st, st.offset < 30000 →
      ∀ o ∈ (addLoop pages now window target fuel st).2, o < 30000 := by
  intro fuel
  induction fuel with
  | zero =>
    intro st hst o ho
    rw [addLoop] at ho
    split at ho <;> simp at ho
  | succ fuel ih =>
    intro st hst o ho
    rw [addLoop] at ho
    by_cases hw : st.temperature_data_amount < target ∨ st.humidity_data_amount < target
    · rw [if_pos hw] at ho
      by_cases hb : (addIter pages now window st).2 = true
      · rw [if_pos hb] at ho
        simp at ho
        omega
      · rw [if_neg hb] at ho
        simp only [List.mem_cons] at ho
        rcases ho with ho | ho
        · omega
        · have hoff := addIter_not_stopped pages now window st (by simpa using hb)
          exact ih _ (by rw [addIter_offset]; omega) o ho
    · rw [if_neg hw] at ho; simp at ho


/-! ### Bucket invariants -/

theorem emptyBuckets_keysWF : BucketsKeysWF emptyBuckets := by
  intro sid; simp [emptyBuckets]

theorem emptyBuckets_siteInv : BucketsSiteInv emptyBuckets := by
  intro sid r h; simp [emptyBuckets] at h

theorem push_keysWF (b : Buckets) (sid : Nat) (r : ARec) (h : BucketsKeysWF b) :
    BucketsKeysWF (b.push sid r) := by
  intro k
  simp only [Buckets.push]
  by_cases hk : k = sid
  · subst hk
    by_cases hs : k ∈ b.keys <;> simp [hs]
  · by_cases hs : sid ∈ b.keys <;> simp [hs, hk, h k]

theorem push_siteInv (b : Buckets) (sid : Nat) (r : ARec) (h : BucketsSiteInv b)
    (hr : r.siteid = sid) : BucketsSiteInv (b.push sid r) := by
  intro k q hq
  simp only [Buckets.push] at hq
  by_cases hk : k = sid
  · subst hk
    rw [if_pos rfl] at hq
    rcases List.mem_append.mp hq with hq | hq
    · exact h k q hq
    · simp at hq; subst hq; exact hr
  · rw [if_neg hk] at hq
    exact h k q hq

theorem processRecord_inv (now : Int) (window : Nat) (st : AddState) (r : UpRec)
    (h : AddInv st) : AddInv (processRecord now window st r) := by
  obtain ⟨h1, h2, h3, h4⟩ := h
  rw [processRecord]
  split
  · exact ⟨h1, h2, h3, h4⟩
  · split
    · exact ⟨push_keysWF _ _ _ h1, h2, push_siteInv _ _ _ h3 rfl, h4⟩
    · split
      · exact ⟨h1, push_keysWF _ _ _ h2, h3, push_siteInv _ _ _ h4 rfl⟩
      · exact ⟨h1, h2, h3, h4⟩

theorem processAddPage_inv (now : Int) (window : Nat) (records : List UpRec) :
    ∀ st, AddInv st → AddInv (processAddPage now window st records) := by
  induction records with
  | nil => intro st h; simpa [processAddPage] using h
  | cons r rs ih =>
    intro st h
    simpa [processAddPage] using ih _ (processRecord_inv now window st r h)

theorem addIter_inv (pages : Nat → List UpRec) (now : Int) (window : Nat) (st : AddState)
    (h : AddInv st) : AddInv (addIter pages now window st).1 := by
  obtain ⟨a, b, c, d⟩ := processAddPage_inv now window (pages st.offset) st h
  exact ⟨a, b, c, d⟩

theorem addLoop_inv (pages : Nat → List UpRec) (now : Int) (window target : Nat) :
    ∀ fuel st st', AddInv st →
      (addLoop pages now window target fuel st).1 = some st' → AddInv st' := by
  intro fuel
  induction fuel with
  | zero =>
    intro st st' h hsome
    rw [addLoop] at hsome
    split at hsome
    · simp at hsome
    · simp at hsome; subst hsome; exact h
  | succ fuel ih =>
    intro st st' h hsome
    rw [addLoop] at hsome
    by_cases hw : st.temperature_data_amount < target ∨ st.humidity_data_amount < target
    · rw [if_pos hw] at hsome
      by_cases hb : (addIter pages now window st).2 = true
      · rw [if_pos hb] at hsome
        simp at hsome
        subst hsome
        exact addIter_inv pages now window st h
      · rw [if_neg hb] at hsome
        exact ih _ _ (addIter_inv pages now window st h) hsome
    · rw [if_neg hw] at hsome; simp at hsome; subst hsome; exact h

theorem initAddState_inv : AddInv initAddState :=
  ⟨emptyBuckets_keysWF, emptyBuckets_keysWF, emptyBuckets_siteInv, emptyBuckets_siteInv⟩

theorem fetchFinalState_inv (pages : Nat → List UpRec) (now : Int) (window target : Nat) :
    AddInv (fetchFinalState pages now window target) :=
  addLoop_inv pages now window target 30 initAddState _ initAddState_inv
    (addLoop_run_complete pages now window target)

/-! ### JSON round-trip lemmas -/

theorem decode_encode_ARec (vk : String) (r : ARec) :
    decodeARec vk (encodeARec vk r) = some r := by
  simp [encodeARec, decodeARec]

theorem decode_encode_ARecList (vk : String) (l : List ARec) :
    decodeARecList vk (encodeARecList vk l) = some l := by
  induction l with
  | nil => rfl
  | cons a l ih =>
    have ih' : decodeRecs vk (List.map (encodeARec vk) l) = some l := by
      simpa [decodeARecList, encodeARecList] using ih
    simp [encodeARecList, decodeARecList, decodeRecs, decode_encode_ARec, ih']

theorem load_didRefresh (pages : Nat → List UpRec) (now : Int) (window target : Nat)
    (fs : FS) (sid : Nat) :
    (load_additional_data pages now window target fs sid).didRefresh =
      ((fs.temperature sid).isNone || (fs.humidity sid).isNone) := by
  simp only [load_additional_data]
  split
  · rfl
  · split <;> rfl

/-! ### Claim theorems for the supplementary fetch and the cache -/

/-- C3 (evaluation at the failing input): on `miscountPages` with target
100, the pages at offsets 1000, 2000 and 3000 each produce zero growth in
both record counts, yet the run does not stop there — it goes on to request
offsets 4000 and 5000 and is still running (`none`) — because the guard on
line 96 of `additional.py` compares `len(temperature_data)` /
`len(humidity_data)` (the number of dict keys, here 1 and 1) with
`initial_temperature_amount` / `initial_humidity_amount` (record counts,
here 2 and 2) instead of comparing the record counts. -/
theorem empty_fetch_guard_miscount :
    4000 ∈ (addLoop miscountPages 0 24 100 6 initAddState).2 ∧
      ((addLoop miscountPages 0 24 100 6 initAddState).1).isNone = true := by decide

/-- C4 amended: the 30000 offset safety ceiling belongs to the
supplementary fetcher only — there, once the offset reaches 30000 the loop
stops unconditionally, regardless of the target, so no supplementary fetch
run issues a page request at an offset of 30000 or beyond. (The pollution
fetcher has no ceiling; see `pollution_fetch_requests_offset_30000`.) -/
theorem supplementary_fetch_offset_ceiling (pages : Nat → List UpRec) (now : Int)
    (window target fuel : Nat) :
    ∀ o ∈ (addLoop pages now window target fuel initAddState).2, o < 30000 :=
  addLoop_offsets_lt pages now window target fuel initAddState (by simp [initAddState])

/-- Witness for C4 amended: a one-iteration run requests offset 0, which is
below the ceiling. -/
theorem supplementary_fetch_offset_ceiling_witness :
    0 ∈ (addLoop (fun _ => []) 0 24 1 1 initAddState).2 ∧ 0 < 30000 :=
  ⟨by decide, supplementary_fetch_offset_ceiling (fun _ => []) 0 24 1 1 0 (by decide)⟩

/-- C5: the per-record time filter of the supplementary fetch, with the
fixed `current_datetime` computed once per run before the loop: a record
whose timestamp lies strictly more than `window_hours` before now leaves
the state unchanged (discarded); otherwise a temperature-labelled record is
appended to station `r.siteid`'s temperature bucket, and a
humidity-labelled record to its humidity bucket. -/
theorem record_window_filter (now : Int) (window : Nat) (st : AddState) (r : UpRec) :
    (now - r.monitordate > 60 * (window : Int) → processRecord now window st r = st) ∧
    (now - r.monitordate ≤ 60 * (window : Int) →
      (r.itemengname = temperature_MOE_API_value_key →
        (processRecord now window st r).temperature_data.data r.siteid =
          st.temperature_data.data r.siteid ++ [⟨r.siteid, r.concentration, r.monitordate⟩]) ∧
      (r.itemengname = humidity_MOE_API_value_key →
        (processRecord now window st r).humidity_data.data r.siteid =
          st.humidity_data.data r.siteid ++ [⟨r.siteid, r.concentration, r.monitordate⟩])) := by
  constructor
  · intro h
    rw [processRecord, if_pos h]
  · intro h
    constructor
    · intro ht
      rw [processRecord, if_neg (not_lt.mpr h), if_pos ht]
      simp [Buckets.push]
    · intro hh
      have hne : r.itemengname ≠ temperature_MOE_API_value_key := by
        rw [hh]; decide
      rw [processRecord, if_neg (not_lt.mpr h), if_neg hne, if_pos hh]
      simp [Buckets.push]

/-- Witness for C5, the spec's example (times in minutes from
2024-01-01 00:00, window 72 hours, now = 2024-01-10 00:00 = minute 12960):
the record at 2024-01-06 23:00 (minute 8580, 73 h before now) is dropped;
the record at 2024-01-07 01:00 (minute 8700, 71 h before now) is kept. -/
theorem record_window_filter_witness :
    ((12960 : Int) - 8580 > 60 * ((72 : Nat) : Int) ∧
      processRecord 12960 72 initAddState ⟨"AMB_TEMP", "c", "s", 7, "20", 8580⟩ =
        initAddState) ∧
    ((12960 : Int) - 8700 ≤ 60 * ((72 : Nat) : Int) ∧
      (processRecord 12960 72 initAddState
          ⟨"AMB_TEMP", "c", "s", 7, "20", 8700⟩).temperature_data.data 7 =
        initAddState.temperature_data.data 7 ++ [⟨7, "20", 8700⟩]) :=
  ⟨⟨by decide,
      (record_window_filter 12960 72 initAddState ⟨"AMB_TEMP", "c", "s", 7, "20", 8580⟩).1
        (by decide)⟩,
   ⟨by decide,
      ((record_window_filter 12960 72 initAddState ⟨"AMB_TEMP", "c", "s", 7, "20", 8700⟩).2
        (by decide)).1 rfl⟩⟩

/-- C6: `load_additional_data` triggers the full refresh
(`fetch_and_save_additional_data`, covering all stations) exactly when at
least one of the station's two cache files is missing; and when both files
exist but at least one holds invalid JSON, the load fails with the parse
error and no refresh is attempted. -/
theorem load_refresh_iff_missing (pages : Nat → List UpRec) (now : Int) (window target : Nat)
    (fs : FS) (stationId : Nat) :
    ((load_additional_data pages now window target fs stationId).didRefresh = true ↔
      (fs.temperature stationId = none ∨ fs.humidity stationId = none)) ∧
    (∀ d1 d2, fs.temperature stationId = some d1 → fs.humidity stationId = some d2 →
      d1 = FileData.invalid ∨ d2 = FileData.invalid →
      (load_additional_data pages now window target fs stationId).result =
          Except.error LoadErr.parseError ∧
        (load_additional_data pages now window target fs stationId).didRefresh = false) := by
  constructor
  · rw [load_didRefresh]
    simp [Option.isNone_iff_eq_none]
  · intro d1 d2 ht hh hinv
    have hdid : (load_additional_data pages now window target fs stationId).didRefresh = false := by
      rw [load_didRefresh, ht, hh]; rfl
    refine ⟨?_, hdid⟩
    rcases hinv with rfl | rfl
    · simp [load_additional_data, ht, hh, readJson]
    · cases d1 with
      | invalid => simp [load_additional_data, ht, hh, readJson]
      | valid j => simp [load_additional_data, ht, hh, readJson]

/-- Witness for C6: both files exist and the temperature file is invalid
JSON; the load fails with the parse error and does not refresh. -/
theorem load_refresh_iff_missing_witness :
    (load_additional_data (fun _ => []) 0 24 1
        ⟨fun _ => some .invalid, fun _ => some (.valid (.arr []))⟩ 1).result =
        Except.error LoadErr.parseError ∧
      (load_additional_data (fun _ => []) 0 24 1
        ⟨fun _ => some .invalid, fun _ => some (.valid (.arr []))⟩ 1).didRefresh = false :=
  (load_refresh_iff_missing (fun _ => []) 0 24 1
      ⟨fun _ => some .invalid, fun _ => some (.valid (.arr []))⟩ 1).2
    .invalid (.valid (.arr [])) rfl rfl (Or.inl rfl)

/-- C9: for a station whose temperature and humidity buckets are both
non-empty after the fetch run (so both cache files exist and hold what the
refresh wrote), `load_additional_data` right after
`fetch_and_save_additional_data` returns exactly the serialized record
lists of that run, and the serialization is lossless (decode ∘ encode is
the identity on the written lists). -/
theorem refresh_then_load_roundtrip (pages : Nat → List UpRec) (now : Int)
    (window target : Nat) (fs : FS) (sid : Nat)
    (htemp : (fetchFinalState pages now window target).temperature_data.data sid ≠ [])
    (hhum : (fetchFinalState pages now window target).humidity_data.data sid ≠ []) :
    (load_additional_data pages now window target
        (fetch_and_save_additional_data pages now window target fs) sid).result =
      Except.ok
        (encodeARecList temperature_data_value_key
            ((fetchFinalState pages now window target).temperature_data.data sid),
          encodeARecList humidity_data_value_key
            ((fetchFinalState pages now window target).humidity_data.data sid)) ∧
    decodeARecList temperature_data_value_key
        (encodeARecList temperature_data_value_key
          ((fetchFinalState pages now window target).temperature_data.data sid)) =
      some ((fetchFinalState pages now window target).temperature_data.data sid) ∧
    decodeARecList humidity_data_value_key
        (encodeARecList humidity_data_value_key
          ((fetchFinalState pages now window target).humidity_data.data sid)) =
      some ((fetchFinalState pages now window target).humidity_data.data sid) := by
  obtain ⟨hkT, hkH, -, -⟩ := fetchFinalState_inv pages now window target
  have hmemT : sid ∈ (fetchFinalState pages now window target).temperature_data.keys :=
    (hkT sid).mpr htemp
  have hmemH : sid ∈ (fetchFinalState pages now window target).humidity_data.keys :=
    (hkH sid).mpr hhum
  have hfT : (fetch_and_save_additional_data pages now window target fs).temperature sid =
      some (.valid (encodeARecList temperature_data_value_key
        ((fetchFinalState pages now window target).temperature_data.data sid))) := by
    simp [fetch_and_save_additional_data, saveBuckets, hmemT]
  have hfH : (fetch_and_save_additional_data pages now window target fs).humidity sid =
      some (.valid (encodeARecList humidity_data_value_key
        ((fetchFinalState pages now window target).humidity_data.data sid))) := by
    simp [fetch_and_save_additional_data, saveBuckets, hmemH]
  refine ⟨?_, decode_encode_ARecList _ _, decode_encode_ARecList _ _⟩
  simp [load_additional_data, hfT, hfH, readJson]

/-- Witness for C9: the concrete feed `examplePages` fills both buckets of
station 1; refresh-then-load returns the serialized lists. -/
theorem refresh_then_load_roundtrip_witness :
    ((fetchFinalState examplePages 0 24 1).temperature_data.data 1 ≠ []) ∧
    ((fetchFinalState examplePages 0 24 1).humidity_data.data 1 ≠ []) ∧
    (load_additional_data examplePages 0 24 1
        (fetch_and_save_additional_data examplePages 0 24 1 ⟨fun _ => none, fun _ => none⟩) 1).result =
      Except.ok
        (encodeARecList temperature_data_value_key
            ((fetchFinalState examplePages 0 24 1).temperature_data.data 1),
          encodeARecList humidity_data_value_key
            ((fetchFinalState examplePages 0 24 1).humidity_data.data 1)) :=
  ⟨by decide, by decide,
    (refresh_then_load_roundtrip examplePages 0 24 1 ⟨fun _ => none, fun _ => none⟩ 1
        (by decide) (by decide)).1⟩

/-- C10: every record accumulated in a station's bucket during the
supplementary fetch run carries that station's own `siteid` (records are
bucketed by the `siteid` field taken from the record itself), and any cache
file the save phase writes (i.e. whose content changes) for station `sid`
holds exactly the serialization of that station's bucket — so no cache file
written by a run contains another station's measurements. -/
theorem cache_files_keyed_by_siteid (pages : Nat → List UpRec) (now : Int)
    (window target : Nat) (fs : FS) (sid : Nat) (r : ARec) :
    (r ∈ (fetchFinalState pages now window target).temperature_data.data sid →
      r.siteid = sid) ∧
    (r ∈ (fetchFinalState pages now window target).humidity_data.data sid →
      r.siteid = sid) ∧
    ((fetch_and_save_additional_data pages now window target fs).temperature sid ≠
        fs.temperature sid →
      (fetch_and_save_additional_data pages now window target fs).temperature sid =
        some (.valid (encodeARecList temperature_data_value_key
          ((fetchFinalState pages now window target).temperature_data.data sid)))) ∧
    ((fetch_and_save_additional_data pages now window target fs).humidity sid ≠
        fs.humidity sid →
      (fetch_and_save_additional_data pages now window target fs).humidity sid =
        some (.valid (encodeARecList humidity_data_value_key
          ((fetchFinalState pages now window target).humidity_data.data sid)))) := by
  obtain ⟨-, -, hsT, hsH⟩ := fetchFinalState_inv pages now window target
  refine ⟨fun h => hsT sid r h, fun h => hsH sid r h, ?_, ?_⟩
  · intro hne
    by_cases hmem : sid ∈ (fetchFinalState pages now window target).temperature_data.keys
    · simp [fetch_and_save_additional_data, saveBuckets, hmem]
    · exact absurd (by simp [fetch_and_save_additional_data, saveBuckets, hmem]) hne
  · intro hne
    by_cases hmem : sid ∈ (fetchFinalState pages now window target).humidity_data.keys
    · simp [fetch_and_save_additional_data, saveBuckets, hmem]
    · exact absurd (by simp [fetch_and_save_additional_data, saveBuckets, hmem]) hne

/-- Witness for C10: in the `examplePages` run, the record stored in
station 1's temperature bucket has `siteid = 1`. -/
theorem cache_files_keyed_by_siteid_witness :
    (⟨1, "25", 0⟩ : ARec) ∈ (fetchFinalState examplePages 0 24 1).temperature_data.data 1 ∧
      (⟨1, "25", 0⟩ : ARec).siteid = 1 :=
  ⟨by decide,
    (cache_files_keyed_by_siteid examplePages 0 24 1 ⟨fun _ => none, fun _ => none⟩ 1
        ⟨1, "25", 0⟩).1 (by decide)⟩

end AirBox
